import Mathlib

/-!
Shallow embedding of the koli controller core (pkg/controller/appmanager.go and
pkg/spec/spec.go): the app-manager sync handler, the release sync handler, the
CRD readiness poll, the task-queue worker step, and add-on type dispatch.

Go maps of annotations/labels are modelled as association lists with first-match
lookup (Go maps have unique keys).  Side effects (API create/patch/delete calls,
recorded events) are modelled as explicit result fields; outcomes of calls into
the remote control plane that the handler merely observes (injected errors,
patch failures) are supplied as oracle inputs.  Log statements (glog) have no
observable effect and are not modelled.
-/

namespace Koli

/-- Look up a key in a Go-style string map (association list, unique keys). -/
def lookupAnn (anns : List (String × String)) (k : String) : Option String :=
  (anns.find? (fun p => p.1 == k)).map (fun p => p.2)

/-- Go map indexing `m[k]`: the zero value "" when the key is absent. -/
def annGet (anns : List (String × String)) (k : String) : String :=
  (lookupAnn anns k).getD ""

/-- Modelled from the spec: constant `platform.AnnotationBuild` of package
`kolihub.io/koli/pkg/apis/core/v1alpha1`, which is not under src/.  The release
sync reads the literal key "kolihub.io/build" and the spec says the patch
clears the same trigger-build marker, so the constant equals that literal. -/
def AnnotationBuild : String := "kolihub.io/build"

/-- Modelled from the spec: constant `platform.AnnotationGitRemote` (source-control
remote metadata key), not under src/; its exact value is unobservable, only its
identity as the required key matters. -/
def AnnotationGitRemote : String := "kolihub.io/gitremote"

/-- Modelled from the spec: constant `platform.AnnotationGitBranch`, not under src/. -/
def AnnotationGitBranch : String := "kolihub.io/gitbranch"

/-- Modelled from the spec: constant `platform.AnnotationGitRepository`, not under src/. -/
def AnnotationGitRepository : String := "kolihub.io/gitrepository"

/-- Modelled from the spec: constant `platform.AnnotationGitCommitID`, not under src/. -/
def AnnotationGitCommitID : String := "kolihub.io/gitcommitid"

/-- Modelled from the spec: constant `platform.AnnotationGitAuthorName`, not under src/. -/
def AnnotationGitAuthorName : String := "kolihub.io/gitauthorname"

/-- Modelled from the spec: constant `platform.AnnotationGitAuthorAvatar`, not under src/. -/
def AnnotationGitAuthorAvatar : String := "kolihub.io/gitauthoravatar"

/-- Modelled from the spec: constant `platform.AnnotationGitCompare`, not under src/. -/
def AnnotationGitCompare : String := "kolihub.io/gitcompare"

/-- Modelled from the spec: constant `platform.AnnotationGitCommitMessage`, not under src/. -/
def AnnotationGitCommitMessage : String := "kolihub.io/gitcommitmessage"

/-- Modelled from the spec: constant `platform.AnnotationGitCommitURL`, not under src/. -/
def AnnotationGitCommitURL : String := "kolihub.io/gitcommiturl"

/-- Modelled from the spec: constant `platform.AnnotationGitRevision` (label key
for the short commit sha), not under src/. -/
def AnnotationGitRevision : String := "kolihub.io/gitrevision"

/-- Modelled from the spec: constant `platform.AnnotationAutoDeploy` (auto-deploy
boolean marker), not under src/. -/
def AnnotationAutoDeploy : String := "kolihub.io/autodeploy"

/-- Modelled from the spec: constant `platform.AnnotationBuildSource`
(build-source-type marker), not under src/. -/
def AnnotationBuildSource : String := "kolihub.io/buildsource"

/-- Modelled from the spec: constant `platform.AnnotationSetupStorage`
(setup-storage marker key), not under src/. -/
def AnnotationSetupStorage : String := "kolihub.io/setup-storage"

/-- Modelled from the spec: constant `platform.AnnotationStoragePlan`
(storage-plan-name reference key), not under src/. -/
def AnnotationStoragePlan : String := "kolihub.io/storage-plan"

/-- Modelled from the spec: constant `platform.AnnotationApp`: the label key of
the `app=<name>` delete-collection selector of §6 "Label selector cleanup". -/
def AnnotationApp : String := "app"

/-- A deployment as far as the two sync handlers read it: name, namespace,
string metadata, labels, and whether a deletion timestamp is set. -/
structure Deployment where
  name : String
  ns : String
  annotations : List (String × String)
  labels : List (String × String)
  deletionTimestampSet : Bool
deriving Repr, DecidableEq

/-- Modelled from the spec: `draft.Deployment.GetStoragePlan(...).Value()`
(package draft is not under src/).  §6: the storage-plan-name reference is a
plain string key/value pair on the source object; absent or empty means unset. -/
def getStoragePlan (d : Deployment) : Option String :=
  match lookupAnn d.annotations AnnotationStoragePlan with
  | none => none
  | some v => if v == "" then none else some v

/-- Modelled from the spec: `draft.Deployment.HasSetupPVCAnnotation` (package
draft is not under src/).  §6: the setup-storage flag is a plain string marker;
absence or a non-"true" value is treated as false. -/
def hasSetupPVCMarker (d : Deployment) : Bool :=
  annGet d.annotations AnnotationSetupStorage == "true"

/-- A recorded diagnostic event: the object it is recorded against, the event
type ("Warning"/"Normal"), the reason, and the message. -/
structure Event where
  objName : String
  objNs : String
  etype : String
  reason : String
  message : String
deriving Repr, DecidableEq

/-- A patch call issued against a deployment: target, patch type, raw payload. -/
structure Patch where
  ns : String
  name : String
  patchType : String
  payload : String
deriving Repr, DecidableEq

/-- Outcome of a create call against the control plane. -/
inductive CreateOutcome where
  | created
  | alreadyExists
  | otherErr (msg : String)
deriving Repr, DecidableEq

/-- A storage plan as the app-manager reads it from the plan cache: its name,
whether it satisfies the storage-type predicate (`IsStorageType`, a method of
the platform package not under src/, modelled as a boolean field per the spec's
"plan-is-storage-type predicate"), and its declared storage capacity. -/
structure Plan where
  name : String
  isStorageType : Bool
  storage : String
deriving Repr, DecidableEq

/-- A persistent volume claim as `newPVC` builds it: name, namespace, and the
requested storage capacity (access mode is the constant ReadWriteOnce). -/
structure PVC where
  name : String
  ns : String
  storageRequest : String
deriving Repr, DecidableEq

/-- `newPVC` (appmanager.go): claim named "d-"++name in the deployment's
namespace, requesting the plan's declared capacity. -/
def newPVC (d : Deployment) (plan : Plan) : PVC :=
  { name := "d-" ++ d.name, ns := d.ns, storageRequest := plan.storage }

/-- Split a character list around every occurrence of the separator. -/
def splitOnChar (c : Char) : List Char → List (List Char)
  | [] => [[]]
  | x :: xs =>
    if x == c then [] :: splitOnChar c xs
    else
      match splitOnChar c xs with
      | [] => [[x]]
      | y :: ys => (x :: y) :: ys

/-- `strings.Split(key, "/")`: split around every slash (the separator the
sync handler uses is the single character "/"). -/
def stringsSplitSlash (s : String) : List String :=
  (splitOnChar '/' s.data).map (fun cs => { data := cs })

/-- Control-plane PVC create: an injected error (oracle) if supplied, otherwise
name collision in the namespace yields AlreadyExists, else the claim is stored. -/
def createPVC (pvcs : List PVC) (p : PVC) (injectErr : Option String) :
    List PVC × CreateOutcome :=
  match injectErr with
  | some m => (pvcs, .otherErr m)
  | none =>
    if pvcs.any (fun q => q.name == p.name && q.ns == p.ns) then
      (pvcs, .alreadyExists)
    else (pvcs ++ [p], .created)

/-- `cache.ListAll` over the plan store keeping the last object whose name
matches and which satisfies the storage-type predicate (the Go loop overwrites
`plan` on every match). -/
def findPlan (plans : List Plan) (planName : String) : Option Plan :=
  plans.foldl
    (fun acc p => if p.name == planName && p.isStorageType then some p else acc)
    none

/-- The default-route side effect of `addDefaultRoute`: the service name and the
ingress host created for an "app"-labelled deployment (create errors are only
logged by the caller, so outcomes have no observable effect on the sync). -/
structure RouteEffect where
  svcName : String
  ingressHost : String
deriving Repr, DecidableEq

/-- `addDefaultRoute` (appmanager.go): no-op when the controller has no default
domain or the deployment is not labelled `kolihub.io/type=app`; otherwise a
service named after the deployment and an ingress with host
`<name>-<ns>.<domain>` are created. -/
def addDefaultRoute (defaultDomain : String) (d : Deployment) :
    Option RouteEffect :=
  if defaultDomain == "" || annGet d.labels "kolihub.io/type" != "app" then
    none
  else
    some { svcName := d.name
           ingressHost := d.name ++ "-" ++ d.ns ++ "." ++ defaultDomain }

/-- Oracle inputs to one app-manager sync: the store-lookup error, an injected
non-AlreadyExists error for the PVC create, the deployment-patch failure, and
the pod delete-collection failure (the last is logged only, never observed). -/
structure AppOracles where
  storeErr : Option String
  pvcCreateErr : Option String
  patchErr : Option String
  cleanErr : Option String
deriving Repr, DecidableEq

/-- Observable outcome of one `AppManagerController.syncHandler` run: the
returned error, the PVC store after the run, recorded events, patch calls
issued against the deployment, pod delete-collection calls (namespace and
label selector), and the default-route creation attempt. -/
structure AppSyncResult where
  err : Option String
  pvcs : List PVC
  events : List Event
  patches : List Patch
  deleteCollections : List (String × String)
  route : Option RouteEffect
deriving Repr, DecidableEq

/-- The merge-patch payload clearing the setup-storage marker (appmanager.go
line 194). -/
def setupStoragePatchData : String :=
  "\x7b\"metadata\": \x7b\"annotations\": \x7b\"" ++ AnnotationSetupStorage ++
    "\": \"false\"\x7d\x7d\x7d"

/-- `AppManagerController.syncHandler`.  `nsValid` stands for
`draft.NewNamespaceMetadata(ns).IsValid()` (package draft is not under src/;
the spec only says the namespace must match the platform naming convention, so
the predicate is a parameter).  `store` is the cached deployment for the key
(`none` when the key is absent), `plans` the plan cache, `pvcs` the cluster's
claims. -/
def appSyncHandler (nsValid : String → Bool) (defaultDomain : String)
    (key : String) (store : Option Deployment) (plans : List Plan)
    (pvcs : List PVC) (o : AppOracles) : AppSyncResult :=
  match o.storeErr with
  | some e =>
    -- failed retrieving object from store: return the error
    { err := some e, pvcs := pvcs, events := [], patches := []
      deleteCollections := [], route := none }
  | none =>
  match store with
  | none =>
    -- the deployment doesn't exist: orphan slugbuild cleanup workaround
    (match stringsSplitSlash key with
     | [ns, appName] =>
       -- cleanBuilds: skip non-platform namespaces, else delete pods by
       -- label selector app=<name>; a failure is logged, not returned
       if nsValid ns then
         { err := none, pvcs := pvcs, events := [], patches := []
           deleteCollections := [(ns, AnnotationApp ++ "=" ++ appName)]
           route := none }
       else
         { err := none, pvcs := pvcs, events := [], patches := []
           deleteCollections := [], route := none }
     | _ =>
       { err := none, pvcs := pvcs, events := [], patches := []
         deleteCollections := [], route := none })
  | some d =>
    if d.deletionTimestampSet then
      -- object marked for deletion: no-op
      { err := none, pvcs := pvcs, events := [], patches := []
        deleteCollections := [], route := none }
    else if !nsValid d.ns then
      -- not a valid platform resource: no-op
      { err := none, pvcs := pvcs, events := [], patches := []
        deleteCollections := [], route := none }
    else
      -- default route: create errors other than AlreadyExists are only logged
      let route := addDefaultRoute defaultDomain d
      -- (the empty requests/limits check only logs a warning: not modelled)
      match getStoragePlan d with
      | none =>
        -- no storage plan reference: nothing else to do
        { err := none, pvcs := pvcs, events := [], patches := []
          deleteCollections := [], route := route }
      | some planName =>
        if !hasSetupPVCMarker d then
          { err := none, pvcs := pvcs, events := [], patches := []
            deleteCollections := [], route := route }
        else
          match findPlan plans planName with
          | none =>
            -- PlanNotFound: warning event and failed sync
            let msg := "Storage Plan \"" ++ planName ++ "\" not found"
            { err := some msg, pvcs := pvcs
              events := [{ objName := d.name, objNs := d.ns
                           etype := "Warning", reason := "PlanNotFound"
                           message := msg }]
              patches := [], deleteCollections := [], route := route }
          | some plan =>
            match createPVC pvcs (newPVC d plan) o.pvcCreateErr with
            | (_, .otherErr m) =>
              -- ProvisionError: warning event and failed sync
              let msg := "Failed creating PVC [" ++ m ++ "]"
              { err := some msg, pvcs := pvcs
                events := [{ objName := d.name, objNs := d.ns
                             etype := "Warning", reason := "ProvisionError"
                             message := msg }]
                patches := [], deleteCollections := [], route := route }
            | (pvcs1, _) =>
              -- created or AlreadyExists: clear the setup-storage marker;
              -- a patch failure is a hard sync error
              let p : Patch :=
                { ns := d.ns, name := d.name, patchType := "merge"
                  payload := setupStoragePatchData }
              match o.patchErr with
              | some pe =>
                { err := some (key ++ " - failed updating deployment [" ++
                               pe ++ "]")
                  pvcs := pvcs1, events := [], patches := [p]
                  deleteCollections := [], route := route }
              | none =>
                { err := none, pvcs := pvcs1, events := [], patches := [p]
                  deleteCollections := [], route := route }

/-- A Release record as `ReleaseController.syncHandler` constructs it: name
(revision identifier), namespace, labels, the source-control metadata of the
spec, the auto-deploy and build flags, the correlated deploy name, and the
build source type. -/
structure Release where
  name : String
  ns : String
  labels : List (String × String)
  gitRemote : String
  gitBranch : String
  gitRepository : String
  headCommitID : String
  headCommitAuthor : String
  headCommitAvatarURL : String
  headCommitCompare : String
  headCommitMessage : String
  headCommitURL : String
  autoDeploy : Bool
  deployName : String
  build : Bool
  source : String
deriving Repr, DecidableEq

/-- `requiredKeys` (appmanager.go line 315): annotation keys a deployment must
carry before a release is built. -/
def requiredKeys : List String := [AnnotationGitRemote]

/-- `validateRequiredKeys`: the error message for the first missing required
annotation key, or `none` when all are present. -/
def validateRequiredKeys (dp : Deployment) : Option String :=
  match requiredKeys.find? (fun k => (lookupAnn dp.annotations k).isNone) with
  | some k => some ("Missing required key '" ++ k ++ "'")
  | none => none

/-- `activateBuildPayload`: the strategic-merge-patch payload setting the
trigger-build marker to "true" or "false". -/
def activateBuildPayload (activate : Bool) : String :=
  let build := if activate then "true" else "false"
  "\x7b\"metadata\": \x7b\"annotations\": \x7b\"" ++ AnnotationBuild ++
    "\": \"" ++ build ++ "\"\x7d\x7d\x7d"

/-- The Release record built by `ReleaseController.syncHandler` from the
deployment's annotations.  `shaShort` stands for
`koliutil.NewSha(commitID).Short()` (package koliutil is not under src/ and the
spec does not describe it): `none` when the commit id does not parse as a sha,
in which case no git-revision label is attached. -/
def newRelease (shaShort : String → Option String) (dp : Deployment) :
    Release :=
  let ann := annGet dp.annotations
  { name := dp.name
    ns := dp.ns
    labels :=
      [("kolihub.io/deploy", dp.name)] ++
        (match shaShort (ann AnnotationGitCommitID) with
         | some s => [(AnnotationGitRevision, s)]
         | none => [])
    gitRemote := ann AnnotationGitRemote
    gitBranch := ann AnnotationGitBranch
    gitRepository := ann AnnotationGitRepository
    headCommitID := ann AnnotationGitCommitID
    headCommitAuthor := ann AnnotationGitAuthorName
    headCommitAvatarURL := ann AnnotationGitAuthorAvatar
    headCommitCompare := ann AnnotationGitCompare
    headCommitMessage := ann AnnotationGitCommitMessage
    headCommitURL := ann AnnotationGitCommitURL
    autoDeploy := ann AnnotationAutoDeploy == "true"
    deployName := dp.name
    build := true
    source := ann AnnotationBuildSource }

/-- Control-plane Release create: an injected error (oracle) if supplied,
otherwise name collision in the namespace yields AlreadyExists, else the
release is stored. -/
def createRelease (rels : List Release) (r : Release)
    (injectErr : Option String) : List Release × CreateOutcome :=
  match injectErr with
  | some m => (rels, .otherErr m)
  | none =>
    if rels.any (fun q => q.name == r.name && q.ns == r.ns) then
      (rels, .alreadyExists)
    else (rels ++ [r], .created)

/-- Oracle inputs to one release sync: the store-lookup error, an injected
non-AlreadyExists error for the Release create, and the deployment-patch
failure. -/
structure RelOracles where
  storeErr : Option String
  createErr : Option String
  patchErr : Option String
deriving Repr, DecidableEq

/-- Observable outcome of one `ReleaseController.syncHandler` run: the
returned error, the Release store after the run, recorded events, and patch
calls issued against the deployment. -/
structure RelSyncResult where
  err : Option String
  releases : List Release
  events : List Event
  patches : List Patch
deriving Repr, DecidableEq

/-- `ReleaseController.syncHandler`.  `nsValid` stands for
`draft.NewNamespaceMetadata(ns).IsValid()` (package draft not under src/),
`shaShort` for the koliutil sha parser, `store` for the cached deployment at
the key, `releases` for the cluster's Release store. -/
def releaseSyncHandler (nsValid : String → Bool)
    (shaShort : String → Option String) (key : String)
    (store : Option Deployment) (releases : List Release) (o : RelOracles) :
    RelSyncResult :=
  match o.storeErr with
  | some e => { err := some e, releases := releases, events := [], patches := [] }
  | none =>
  match store with
  | none =>
    -- release doesn't exist: no-op
    { err := none, releases := releases, events := [], patches := [] }
  | some dp =>
    if !nsValid dp.ns then
      -- not a valid namespace: no-op
      { err := none, releases := releases, events := [], patches := [] }
    else if annGet dp.annotations "kolihub.io/build" != "true" then
      -- not a build action: no-op
      { err := none, releases := releases, events := [], patches := [] }
    else
      match validateRequiredKeys dp with
      | some vErr =>
        -- MissingAnnotationKey: warning event and failed sync
        { err := some ("ValidateRequiredKeys [" ++ vErr ++ "]")
          releases := releases
          events := [{ objName := dp.name, objNs := dp.ns
                       etype := "Warning", reason := "MissingAnnotationKey"
                       message := vErr }]
          patches := [] }
      | none =>
        let release := newRelease shaShort dp
        match createRelease releases release o.createErr with
        | (_, .otherErr m) =>
          -- a non-AlreadyExists create failure returns before the
          -- build-deactivation patch is attempted
          { err := some ("failed creating new release: " ++ m)
            releases := releases, events := [], patches := [] }
        | (rels1, outcome) =>
          -- on first creation a Normal "Created" event is recorded
          let createdEvents :=
            if outcome == .created then
              let ref :=
                if release.headCommitID == "" then release.gitBranch
                else release.headCommitID
              [{ objName := release.name, objNs := release.ns
                 etype := "Normal", reason := "Created"
                 message := "Created release with revision '" ++ ref ++
                   "' from '" ++ release.source ++ "'" : Event }]
            else []
          -- deactivate the build marker; a patch failure is only logged
          let p : Patch :=
            { ns := dp.ns, name := dp.name, patchType := "strategic-merge"
              payload := activateBuildPayload false }
          { err := none, releases := rels1, events := createdEvents
            patches := [p] }

/-- CRD condition types read by `waitCRDReady` (other condition types are
skipped by the switch). -/
inductive CondType where
  | established
  | namesAccepted
  | otherCond
deriving Repr, DecidableEq

/-- CRD condition status values. -/
inductive CondStatus where
  | condTrue
  | condFalse
  | condUnknown
deriving Repr, DecidableEq

/-- One entry of a CRD's status condition list. -/
structure CRDCondition where
  ctype : CondType
  status : CondStatus
  reason : String
deriving Repr, DecidableEq

/-- Result of inspecting one observed condition list inside the poll body. -/
inductive PollStep where
  | done
  | conflict (reason : String)
  | keepPolling
deriving Repr, DecidableEq

/-- The condition loop of `waitCRDReady`'s poll body: scan the condition list
in order; Established=True returns success, NamesAccepted=False returns the
name-conflict error, anything else is skipped. -/
def checkConditions : List CRDCondition → PollStep
  | [] => .keepPolling
  | c :: rest =>
    match c.ctype, c.status with
    | .established, .condTrue => .done
    | .namesAccepted, .condFalse => .conflict c.reason
    | _, _ => checkConditions rest

/-- Outcome of `waitCRDReady`: ready, the name-conflict error, a propagated
Get error, or `wait.Poll`'s timeout error. -/
inductive WaitResult where
  | ready
  | nameConflict (msg : String)
  | getError (msg : String)
  | timedOut
deriving Repr, DecidableEq

/-- `wait.Poll(1s, 30s, ...)` as a bounded loop: `fetch i` is the condition
list (or Get error) observed at poll attempt `i`; `fuel` attempts remain.  A
Get error or a name conflict stops polling immediately; exhausted fuel is the
timeout error. -/
def pollCRD (fetch : Nat → Except String (List CRDCondition)) :
    Nat → Nat → WaitResult
  | 0, _ => .timedOut
  | fuel + 1, i =>
    match fetch i with
    | .error e => .getError e
    | .ok conds =>
      match checkConditions conds with
      | .done => .ready
      | .conflict r => .nameConflict ("Name conflict: " ++ r)
      | .keepPolling => pollCRD fetch fuel (i + 1)

/-- The poll interval of `waitCRDReady`, in seconds. -/
def crdPollIntervalSeconds : Nat := 1

/-- The poll total timeout of `waitCRDReady`, in seconds. -/
def crdPollTimeoutSeconds : Nat := 30

/-- `waitCRDReady`: poll every second for up to 30 seconds, i.e. at most
timeout/interval = 30 condition reads. -/
def waitCRDReady (fetch : Nat → Except String (List CRDCondition)) :
    WaitResult :=
  pollCRD fetch (crdPollTimeoutSeconds / crdPollIntervalSeconds) 0

/-- The client-go rate-limiting work queue as `TaskQueue` drives it, modelled
from the spec (§3 "Queue Item", §4.1): pending keys, the processing set, the
dirty set (keys re-added while processing), and per-key consecutive-failure
counts backing the exponential backoff. -/
structure QueueState where
  pending : List String
  processing : List String
  dirty : List String
  failures : List (String × Nat)
deriving Repr, DecidableEq

/-- The rate-limit history of a key: its consecutive-failure count. -/
def failCount (q : QueueState) (k : String) : Nat :=
  ((q.failures.find? (fun p => p.1 == k)).map (fun p => p.2)).getD 0

/-- Set a key's consecutive-failure count (update the entry if present, else
append one; per-key entries are unique). -/
def setFailCount : List (String × Nat) → String → Nat → List (String × Nat)
  | [], k, n => [(k, n)]
  | p :: rest, k, n =>
    if p.1 == k then (k, n) :: rest else p :: setFailCount rest k n

/-- Modelled from the spec (§4.1 `Get()`): dequeue the next pending key and
mark it processing; `none` when the queue is empty (the worker would block) or
shutting down (the quit path). -/
def queueGet (q : QueueState) : Option (String × QueueState) :=
  match q.pending with
  | [] => none
  | k :: rest =>
    some (k, { q with pending := rest, processing := q.processing ++ [k] })

/-- Modelled from the spec (§4.1 success path): `Forget` clears the key's
rate-limit history. -/
def queueForget (q : QueueState) (k : String) : QueueState :=
  { q with failures := setFailCount q.failures k 0 }

/-- Modelled from the spec (§4.1 failure path, §3 dirty): `AddRateLimited`
bumps the key's consecutive-failure count (driving the exponential backoff)
and re-adds the key: a key still processing is marked dirty for re-delivery
after `Done`; otherwise it joins pending unless already there (dedupe). -/
def queueAddRateLimited (q : QueueState) (k : String) : QueueState :=
  let q1 := { q with failures := setFailCount q.failures k (failCount q k + 1) }
  if q1.processing.contains k then
    if q1.dirty.contains k then q1 else { q1 with dirty := q1.dirty ++ [k] }
  else if q1.pending.contains k then q1
  else { q1 with pending := q1.pending ++ [k] }

/-- Modelled from the spec (§3 Queue Item): `Done` releases the key's
in-flight state; a dirty key is re-delivered by moving it back to pending. -/
def queueDone (q : QueueState) : String → QueueState := fun k =>
  let q1 := { q with processing := q.processing.erase k }
  if q1.dirty.contains k then
    { q1 with dirty := q1.dirty.erase k, pending := q1.pending ++ [k] }
  else q1

/-- Observable outcome of one `TaskQueue.processNextWorkItem` step: the queue
state after the step, the keys passed to the sync function in order, and
whether the quit path was taken. -/
structure ProcessResult where
  state : QueueState
  synced : List String
  quit : Bool
deriving Repr, DecidableEq

/-- `TaskQueue.processNextWorkItem`: dequeue a key (the quit path closes the
worker), run the sync function on it once, `AddRateLimited` on failure or
`Forget` on success, and always `Done`.  `sync k = some e` models a sync
returning error `e`; `none` models success. -/
def processNextWorkItem (sync : String → Option String) (q : QueueState) :
    ProcessResult :=
  match queueGet q with
  | none => { state := q, synced := [], quit := true }
  | some (k, q1) =>
    let q2 :=
      match sync k with
      | some _ => queueAddRateLimited q1 k
      | none => queueForget q1 k
    { state := queueDone q2 k, synced := [k], quit := false }

/-- Add-on type constants of pkg/spec/spec.go. -/
def redis : String := "redis"

/-- Add-on type constant. -/
def memcached : String := "memcached"

/-- Add-on type constant (declared but unimplemented variant). -/
def mySQL : String := "mysql"

/-- `AddonSpec` (spec.go): the add-on declaration fields GetApp reads. -/
structure AddonSpec where
  typ : String
  baseImage : String
  version : String
  replicas : Int
deriving Repr, DecidableEq

/-- `Addon` (spec.go): name plus spec. -/
structure Addon where
  name : String
  spec : AddonSpec
deriving Repr, DecidableEq

/-- The implementations `GetApp` can return (each wraps the add-on). -/
inductive AddonApp where
  | redisApp (a : Addon)
  | memcachedApp (a : Addon)
deriving Repr, DecidableEq

/-- `Addon.GetApp` (spec.go): dispatch on the spec type.  The `mysql` case has
an empty body (no fallthrough in Go), so it reaches the same
"invalid add-on type" return as every unrecognized type; modelled as
`Except.error` standing for Go's `(nil, error)` pair. -/
def Addon.GetApp (a : Addon) : Except String AddonApp :=
  if a.spec.typ == redis then .ok (.redisApp a)
  else if a.spec.typ == memcached then .ok (.memcachedApp a)
  else .error ("invalid add-on type (" ++ a.spec.typ ++ ")")

/-- A concrete deployment carrying the trigger-build marker and the required
source-control metadata, used in closed witness evaluations. -/
def sampleBuildDp : Deployment :=
  { name := "myapp", ns := "acme"
    annotations := [("kolihub.io/build", "true"),
                    (AnnotationGitRemote, "git@example.com:acme/myapp.git"),
                    (AnnotationGitBranch, "master"),
                    (AnnotationAutoDeploy, "true")]
    labels := [], deletionTimestampSet := false }

/-- `sampleBuildDp` after the trigger-build marker has been cleared. -/
def sampleClearedDp : Deployment :=
  { sampleBuildDp with
    annotations := [("kolihub.io/build", "false"),
                    (AnnotationGitRemote, "git@example.com:acme/myapp.git"),
                    (AnnotationGitBranch, "master"),
                    (AnnotationAutoDeploy, "true")] }

/-- A concrete deployment with the trigger-build marker but no source-control
remote key. -/
def sampleNoRemoteDp : Deployment :=
  { name := "myapp", ns := "acme"
    annotations := [("kolihub.io/build", "true")]
    labels := [], deletionTimestampSet := false }

/-- A concrete deployment referencing a storage plan with the setup-storage
marker set. -/
def sampleStorageDp : Deployment :=
  { name := "myapp", ns := "acme"
    annotations := [(AnnotationStoragePlan, "small"),
                    (AnnotationSetupStorage, "true")]
    labels := [], deletionTimestampSet := false }

/-- A concrete storage plan. -/
def samplePlan : Plan := { name := "small", isStorageType := true, storage := "5Gi" }

/-- App-manager oracles with no injected failures. -/
def okAppOracles : AppOracles :=
  { storeErr := none, pvcCreateErr := none, patchErr := none, cleanErr := none }

/-- Release oracles with no injected failures. -/
def okRelOracles : RelOracles :=
  { storeErr := none, createErr := none, patchErr := none }

/-- Release oracles injecting a non-AlreadyExists create failure. -/
def boomRelOracles : RelOracles :=
  { storeErr := none, createErr := some "boom", patchErr := none }

/-! ### Helper lemmas -/

theorem find_setFailCount (fs : List (String × Nat)) (k : String) (n : Nat) :
    (setFailCount fs k n).find? (fun p => p.1 == k) = some (k, n) := by
  induction fs with
  | nil => simp [setFailCount]
  | cons p rest ih =>
    by_cases h : p.1 = k
    · simp [setFailCount, h]
    · have hb : (p.1 == k) = false := by simpa using h
      simp [setFailCount, hb, List.find?_cons, ih]

theorem failures_queueDone (q : QueueState) (k : String) :
    (queueDone q k).failures = q.failures := by
  simp only [queueDone]
  split <;> rfl

theorem processing_queueDone (q : QueueState) (k : String) :
    (queueDone q k).processing = q.processing.erase k := by
  simp only [queueDone]
  split <;> rfl

theorem queueGet_eq (q : QueueState) (k : String) (q1 : QueueState)
    (h : queueGet q = some (k, q1)) :
    q.pending = k :: q1.pending ∧
    q1 = { q with pending := q1.pending, processing := q.processing ++ [k] } := by
  cases hp : q.pending with
  | nil => rw [queueGet, hp] at h; exact absurd h (by simp)
  | cons k0 rest =>
    rw [queueGet, hp] at h
    simp only [Option.some.injEq, Prod.mk.injEq] at h
    obtain ⟨hk0, hq1⟩ := h
    subst hk0
    subst hq1
    exact ⟨rfl, rfl⟩

theorem pollCRD_skip (fetch : Nat → Except String (List CRDCondition))
    (k : Nat) :
    ∀ fuel i, k ≤ fuel →
      (∀ j, j < k →
        ∃ cs, fetch (i + j) = .ok cs ∧ checkConditions cs = .keepPolling) →
      pollCRD fetch fuel i = pollCRD fetch (fuel - k) (i + k) := by
  induction k with
  | zero => intro fuel i _ _; simp
  | succ k ih =>
    intro fuel i hk h
    obtain ⟨cs, hcs, hkeep⟩ := h 0 (Nat.succ_pos k)
    rw [Nat.add_zero] at hcs
    match fuel, hk with
    | Nat.succ fuel, hk =>
      have hk2 : k ≤ fuel := Nat.le_of_succ_le_succ hk
      simp only [pollCRD, hcs, hkeep]
      have harg : ∀ j, j < k →
          ∃ cs, fetch (i + 1 + j) = .ok cs ∧
            checkConditions cs = .keepPolling := by
        intro j hj
        have h2 := h (j + 1) (Nat.succ_lt_succ hj)
        have he : i + (j + 1) = i + 1 + j := by omega
        rw [he] at h2
        exact h2
      rw [ih fuel (i + 1) hk2 harg]
      have h3 : Nat.succ fuel - Nat.succ k = fuel - k := Nat.succ_sub_succ fuel k
      have h4 : i + Nat.succ k = i + 1 + k := by omega
      rw [h3, h4]

theorem waitCRD_of_earlierKeep (fetch : Nat → Except String (List CRDCondition))
    (i : Nat) (hi : i < crdPollTimeoutSeconds / crdPollIntervalSeconds)
    (hpre : ∀ j, j < i →
      ∃ cs, fetch j = .ok cs ∧ checkConditions cs = .keepPolling)
    (cs : List CRDCondition) (hcs : fetch i = .ok cs) :
    (checkConditions cs = .done → waitCRDReady fetch = .ready) ∧
    (∀ r, checkConditions cs = .conflict r →
      waitCRDReady fetch = .nameConflict ("Name conflict: " ++ r)) := by
  have h30 : crdPollTimeoutSeconds / crdPollIntervalSeconds = 30 := by
    norm_num [crdPollTimeoutSeconds, crdPollIntervalSeconds]
  rw [h30] at hi
  have hskip := pollCRD_skip fetch i 30 0 (Nat.le_of_lt hi)
    (by intro j hj; simpa using hpre j hj)
  have hw : waitCRDReady fetch = pollCRD fetch (30 - i) (0 + i) := by
    rw [waitCRDReady, h30, hskip]
  obtain ⟨m, hm⟩ : ∃ m, 30 - i = m + 1 := ⟨30 - i - 1, by omega⟩
  rw [Nat.zero_add] at hw
  rw [hm] at hw
  constructor
  · intro hdone
    rw [hw]
    simp only [pollCRD, hcs, hdone]
  · intro r hconf
    rw [hw]
    simp only [pollCRD, hcs, hconf]

theorem waitCRD_timeout_of_all (fetch : Nat → Except String (List CRDCondition))
    (h : ∀ j, j < crdPollTimeoutSeconds / crdPollIntervalSeconds →
      ∃ cs, fetch j = .ok cs ∧ checkConditions cs = .keepPolling) :
    waitCRDReady fetch = .timedOut := by
  have h30 : crdPollTimeoutSeconds / crdPollIntervalSeconds = 30 := by
    norm_num [crdPollTimeoutSeconds, crdPollIntervalSeconds]
  rw [h30] at h
  have hskip := pollCRD_skip fetch 30 30 0 (Nat.le_refl 30)
    (by intro j hj; simpa using h j hj)
  rw [waitCRDReady, h30, hskip]
  rfl

/-! ### Claims -/

/-- C10: `Addon.GetApp` returns the redis implementation for type "redis" and
the memcached implementation for type "memcached", each with no error; every
other spec type — including the declared-but-unimplemented "mysql" — yields a
nil interface together with an "invalid add-on type" error at lookup time. -/
theorem claim_C10_getApp_dispatch (a : Addon) :
    (a.spec.typ ≠ redis → a.spec.typ ≠ memcached →
      a.GetApp = .error ("invalid add-on type (" ++ a.spec.typ ++ ")")) ∧
    (a.spec.typ = mySQL →
      a.GetApp = .error ("invalid add-on type (" ++ mySQL ++ ")")) ∧
    (a.spec.typ = redis → a.GetApp = .ok (.redisApp a)) ∧
    (a.spec.typ = memcached → a.GetApp = .ok (.memcachedApp a)) := by
  refine ⟨?_, ?_, ?_, ?_⟩
  · intro h1 h2
    have hb1 : (a.spec.typ == redis) = false := by simpa using h1
    have hb2 : (a.spec.typ == memcached) = false := by simpa using h2
    simp [Addon.GetApp, hb1, hb2]
  · intro h
    simp only [Addon.GetApp, h]
    rfl
  · intro h
    simp only [Addon.GetApp, h]
    rfl
  · intro h
    simp only [Addon.GetApp, h]
    rfl

/-- Witness for C10 at the concrete types "mysql" and "redis". -/
theorem claim_C10_witness :
    Addon.GetApp { name := "db", spec := { typ := "mysql", baseImage := "i"
                                           version := "1", replicas := 1 } } =
      .error ("invalid add-on type (" ++ mySQL ++ ")") ∧
    Addon.GetApp { name := "c", spec := { typ := "redis", baseImage := "i"
                                          version := "1", replicas := 1 } } =
      .ok (.redisApp { name := "c", spec := { typ := "redis", baseImage := "i"
                                              version := "1", replicas := 1 } }) := by
  constructor
  · exact (claim_C10_getApp_dispatch _).2.1 rfl
  · exact (claim_C10_getApp_dispatch _).2.2.1 rfl

/-- C9: one `processNextWorkItem` step on a dequeueable key invokes the sync
function exactly once on that key; on success the key's rate-limit history is
cleared to zero, on failure the failure count is incremented and the key is
re-added (pending again); in both cases the key's in-flight processing state
is released by `Done`. -/
theorem claim_C9_worker_step (sync : String → Option String) (q : QueueState)
    (k : String) (q1 : QueueState) (hget : queueGet q = some (k, q1))
    (hproc : q.processing.contains k = false) :
    (processNextWorkItem sync q).synced = [k] ∧
    (processNextWorkItem sync q).quit = false ∧
    (sync k = none → failCount (processNextWorkItem sync q).state k = 0) ∧
    (∀ e, sync k = some e →
      failCount (processNextWorkItem sync q).state k = failCount q k + 1 ∧
      (processNextWorkItem sync q).state.pending.contains k = true) ∧
    (processNextWorkItem sync q).state.processing.contains k = false := by
  obtain ⟨hpend, hq1⟩ := queueGet_eq q k q1 hget
  have hq1proc : q1.processing = q.processing ++ [k] := by rw [hq1]
  have hq1fail : q1.failures = q.failures := by rw [hq1]
  have hkmem : ¬ k ∈ q.processing := by
    have h2 := hproc
    simp at h2
    exact h2
  have herase : (q.processing ++ [k]).erase k = q.processing := by
    rw [List.erase_append_right _ hkmem]
    simp
  have hpr : (processNextWorkItem sync q) =
      (match sync k with
       | some _ => { state := queueDone (queueAddRateLimited q1 k) k
                     synced := [k], quit := false }
       | none => { state := queueDone (queueForget q1 k) k
                   synced := [k], quit := false }) := by
    rw [processNextWorkItem, hget]
    cases hs : sync k <;> simp [hs]
  cases hs : sync k with
  | none =>
    rw [hpr, hs]
    refine ⟨rfl, rfl, ?_, ?_, ?_⟩
    · intro _
      simp [failCount, failures_queueDone, queueForget, find_setFailCount]
    · intro e he; exact Option.noConfusion he
    · rw [processing_queueDone]
      have hfp : (queueForget q1 k).processing = q.processing ++ [k] := by
        rw [queueForget, ← hq1proc]
      rw [hfp, herase]
      exact hproc
  | some e0 =>
    rw [hpr, hs]
    have hcontains : q1.processing.contains k = true := by
      rw [hq1proc]
      simp
    have hfc : failCount q1 k = failCount q k := by
      rw [failCount, failCount, hq1fail]
    -- after AddRateLimited, the key (still processing) has an incremented
    -- failure count and is marked dirty for re-delivery
    have harl : (queueAddRateLimited q1 k).failures =
          setFailCount q1.failures k (failCount q1 k + 1) ∧
        (queueAddRateLimited q1 k).processing = q1.processing ∧
        (queueAddRateLimited q1 k).dirty.contains k = true := by
      rw [queueAddRateLimited]
      simp only [hcontains, if_true]
      by_cases hd : k ∈ q1.dirty
      · simp [hd]
      · simp [hd]
    obtain ⟨harlf, harlp, harld⟩ := harl
    refine ⟨rfl, rfl, ?_, ?_, ?_⟩
    · intro h0; exact Option.noConfusion h0
    · intro e _
      constructor
      · rw [failCount, failures_queueDone, harlf, hfc, find_setFailCount]
        rfl
      · -- Done on a dirty key re-adds it to pending
        rw [queueDone]
        simp only [harld, if_true]
        simp
    · rw [processing_queueDone, harlp, hq1proc, herase]
      exact hproc

/-- Witness for C9: a queue holding key "ns/app" with two recorded failures;
a successful sync clears the history, and the failing sync on the same queue
increments it and re-adds the key. -/
theorem claim_C9_witness :
    (processNextWorkItem (fun _ => none)
       { pending := ["ns/app"], processing := [], dirty := []
         failures := [("ns/app", 2)] }).synced = ["ns/app"] ∧
    failCount (processNextWorkItem (fun _ => none)
       { pending := ["ns/app"], processing := [], dirty := []
         failures := [("ns/app", 2)] }).state "ns/app" = 0 ∧
    failCount (processNextWorkItem (fun _ => some "boom")
       { pending := ["ns/app"], processing := [], dirty := []
         failures := [("ns/app", 2)] }).state "ns/app" = 3 ∧
    (processNextWorkItem (fun _ => some "boom")
       { pending := ["ns/app"], processing := [], dirty := []
         failures := [("ns/app", 2)] }).state.pending.contains "ns/app" = true := by
  have h1 := claim_C9_worker_step (fun _ => none)
    { pending := ["ns/app"], processing := [], dirty := []
      failures := [("ns/app", 2)] } "ns/app"
    { pending := [], processing := ["ns/app"], dirty := []
      failures := [("ns/app", 2)] } (by decide) (by decide)
  have h2 := claim_C9_worker_step (fun _ => some "boom")
    { pending := ["ns/app"], processing := [], dirty := []
      failures := [("ns/app", 2)] } "ns/app"
    { pending := [], processing := ["ns/app"], dirty := []
      failures := [("ns/app", 2)] } (by decide) (by decide)
  refine ⟨h1.1, h1.2.2.1 rfl, ?_, ?_⟩
  · have := (h2.2.2.2.1 "boom" rfl).1
    rw [this]; decide
  · exact (h2.2.2.2.1 "boom" rfl).2

/-- C4: the CRD readiness poll (1-second interval, 30-second timeout, hence 30
attempts) returns success as soon as an attempt observes Established=True;
returns the name-conflict error as soon as an attempt observes
NamesAccepted=False, consulting no later observation (any condition stream
agreeing up to that attempt yields the same conflict); and when every attempt
observes neither, it times out with a result distinct from every name-conflict
result. -/
theorem claim_C4_crd_poll (fetch : Nat → Except String (List CRDCondition))
    (i : Nat) (hi : i < crdPollTimeoutSeconds / crdPollIntervalSeconds)
    (hpre : ∀ j, j < i →
      ∃ cs, fetch j = .ok cs ∧ checkConditions cs = .keepPolling) :
    (∀ cs, fetch i = .ok cs → checkConditions cs = .done →
      waitCRDReady fetch = .ready) ∧
    (∀ cs r, fetch i = .ok cs → checkConditions cs = .conflict r →
      waitCRDReady fetch = .nameConflict ("Name conflict: " ++ r) ∧
      ∀ fetch2 : Nat → Except String (List CRDCondition),
        (∀ j, j ≤ i → fetch2 j = fetch j) →
        waitCRDReady fetch2 = .nameConflict ("Name conflict: " ++ r)) ∧
    ((∀ j, j < crdPollTimeoutSeconds / crdPollIntervalSeconds →
        ∃ cs, fetch j = .ok cs ∧ checkConditions cs = .keepPolling) →
      waitCRDReady fetch = .timedOut ∧
      ∀ r, waitCRDReady fetch ≠ .nameConflict r) := by
  refine ⟨?_, ?_, ?_⟩
  · intro cs hcs hdone
    exact (waitCRD_of_earlierKeep fetch i hi hpre cs hcs).1 hdone
  · intro cs r hcs hconf
    refine ⟨(waitCRD_of_earlierKeep fetch i hi hpre cs hcs).2 r hconf, ?_⟩
    intro fetch2 hagree
    have hpre2 : ∀ j, j < i →
        ∃ cs, fetch2 j = .ok cs ∧ checkConditions cs = .keepPolling := by
      intro j hj
      rw [hagree j (Nat.le_of_lt hj)]
      exact hpre j hj
    have hcs2 : fetch2 i = .ok cs := by rw [hagree i (Nat.le_refl i)]; exact hcs
    exact (waitCRD_of_earlierKeep fetch2 i hi hpre2 cs hcs2).2 r hconf
  · intro hall
    have ht := waitCRD_timeout_of_all fetch hall
    refine ⟨ht, ?_⟩
    intro r h
    rw [ht] at h
    exact absurd h (by simp)

/-- Witness for C4: a stream observing NamesAccepted=False at attempt 1 after
an empty condition list at attempt 0 yields the name-conflict error. -/
theorem claim_C4_witness :
    waitCRDReady (fun j => if j == 1 then
        .ok [{ ctype := .namesAccepted, status := .condFalse, reason := "dup" }]
      else .ok []) = .nameConflict ("Name conflict: " ++ "dup") := by
  have h := claim_C4_crd_poll (fun j => if j == 1 then
      .ok [{ ctype := .namesAccepted, status := .condFalse, reason := "dup" }]
    else .ok []) 1 (by norm_num [crdPollTimeoutSeconds, crdPollIntervalSeconds])
    (by
      intro j hj
      interval_cases j
      exact ⟨[], rfl, rfl⟩)
  exact (h.2.1 _ "dup" rfl rfl).1

/-- C3: a deployment carrying both a storage-plan reference and the
setup-storage marker whose named plan is absent from the plan cache makes the
sync record exactly one PlanNotFound warning event against the deployment,
return an error, and issue no patch (the setup-storage marker stays on the
deployment) and no claim creation. -/
theorem claim_C3_plan_not_found (nsValid : String → Bool)
    (defaultDomain key : String) (d : Deployment) (plans : List Plan)
    (pvcs : List PVC) (o : AppOracles) (planName : String)
    (hstore : o.storeErr = none)
    (hdel : d.deletionTimestampSet = false)
    (hns : nsValid d.ns = true)
    (hplan : getStoragePlan d = some planName)
    (hsetup : hasSetupPVCMarker d = true)
    (hmiss : findPlan plans planName = none) :
    (appSyncHandler nsValid defaultDomain key (some d) plans pvcs o).err =
      some ("Storage Plan \"" ++ planName ++ "\" not found") ∧
    (appSyncHandler nsValid defaultDomain key (some d) plans pvcs o).events =
      [{ objName := d.name, objNs := d.ns, etype := "Warning"
         reason := "PlanNotFound"
         message := "Storage Plan \"" ++ planName ++ "\" not found" }] ∧
    (appSyncHandler nsValid defaultDomain key (some d) plans pvcs o).patches =
      [] ∧
    (appSyncHandler nsValid defaultDomain key (some d) plans pvcs o).pvcs =
      pvcs := by
  simp [appSyncHandler, hstore, hdel, hns, hplan, hsetup, hmiss]

/-- Witness for C3 at a concrete deployment and an empty plan cache. -/
theorem claim_C3_witness :
    (appSyncHandler (fun _ => true) "" "acme/myapp" (some sampleStorageDp) []
      [] okAppOracles).err = some ("Storage Plan \"" ++ "small" ++ "\" not found") ∧
    (appSyncHandler (fun _ => true) "" "acme/myapp" (some sampleStorageDp) []
      [] okAppOracles).events =
      [{ objName := sampleStorageDp.name, objNs := sampleStorageDp.ns
         etype := "Warning", reason := "PlanNotFound"
         message := "Storage Plan \"" ++ "small" ++ "\" not found" }] ∧
    (appSyncHandler (fun _ => true) "" "acme/myapp" (some sampleStorageDp) []
      [] okAppOracles).patches = [] := by
  have h := claim_C3_plan_not_found (fun _ => true) "" "acme/myapp"
    sampleStorageDp [] [] okAppOracles "small" rfl rfl rfl (by decide)
    (by decide) rfl
  exact ⟨h.1, h.2.1, h.2.2.1⟩

/-- C5: the storage claim is deterministically named "d-" ++ deployment name
and requests the plan's declared capacity; a first sync stores exactly one
claim and a second sync against the resulting claim set collides on name, is
treated as success (no error), and adds no second claim. -/
theorem claim_C5_pvc_idempotent (nsValid : String → Bool)
    (defaultDomain key : String) (d : Deployment) (plans : List Plan)
    (pvcs : List PVC) (o : AppOracles) (planName : String) (plan : Plan)
    (hstore : o.storeErr = none)
    (hcreate : o.pvcCreateErr = none)
    (hpatch : o.patchErr = none)
    (hdel : d.deletionTimestampSet = false)
    (hns : nsValid d.ns = true)
    (hplan : getStoragePlan d = some planName)
    (hsetup : hasSetupPVCMarker d = true)
    (hfound : findPlan plans planName = some plan)
    (hnew : pvcs.any (fun q => q.name == "d-" ++ d.name && q.ns == d.ns) =
      false) :
    (newPVC d plan).name = "d-" ++ d.name ∧
    (newPVC d plan).storageRequest = plan.storage ∧
    (appSyncHandler nsValid defaultDomain key (some d) plans pvcs o).pvcs =
      pvcs ++ [newPVC d plan] ∧
    (appSyncHandler nsValid defaultDomain key (some d) plans pvcs o).err =
      none ∧
    (appSyncHandler nsValid defaultDomain key (some d) plans
      (pvcs ++ [newPVC d plan]) o).pvcs = pvcs ++ [newPVC d plan] ∧
    (appSyncHandler nsValid defaultDomain key (some d) plans
      (pvcs ++ [newPVC d plan]) o).err = none := by
  refine ⟨rfl, rfl, ?_, ?_, ?_, ?_⟩ <;>
    simp [appSyncHandler, createPVC, newPVC, hstore, hcreate, hpatch, hdel,
      hns, hplan, hsetup, hfound, hnew]

/-- Witness for C5 at a concrete deployment, plan and empty claim set. -/
theorem claim_C5_witness :
    (appSyncHandler (fun _ => true) "" "acme/myapp" (some sampleStorageDp)
      [samplePlan] [] okAppOracles).pvcs =
      [newPVC sampleStorageDp samplePlan] ∧
    (appSyncHandler (fun _ => true) "" "acme/myapp" (some sampleStorageDp)
      [samplePlan] [newPVC sampleStorageDp samplePlan] okAppOracles).pvcs =
      [newPVC sampleStorageDp samplePlan] ∧
    (appSyncHandler (fun _ => true) "" "acme/myapp" (some sampleStorageDp)
      [samplePlan] [newPVC sampleStorageDp samplePlan] okAppOracles).err =
      none := by
  have h := claim_C5_pvc_idempotent (fun _ => true) "" "acme/myapp"
    sampleStorageDp [samplePlan] [] okAppOracles "small" samplePlan
    rfl rfl rfl rfl rfl (by decide) (by decide) rfl rfl
  exact ⟨h.2.2.1, h.2.2.2.2.1, h.2.2.2.2.2⟩

/-- C6: when the storage claim is created for the first time, a merge patch
with the payload clearing the setup-storage marker is applied to the source
deployment; if that patch fails the sync returns an error, and if it succeeds
the sync returns none. -/
theorem claim_C6_clear_marker_patch (nsValid : String → Bool)
    (defaultDomain key : String) (d : Deployment) (plans : List Plan)
    (pvcs : List PVC) (o : AppOracles) (planName : String) (plan : Plan)
    (hstore : o.storeErr = none)
    (hcreate : o.pvcCreateErr = none)
    (hdel : d.deletionTimestampSet = false)
    (hns : nsValid d.ns = true)
    (hplan : getStoragePlan d = some planName)
    (hsetup : hasSetupPVCMarker d = true)
    (hfound : findPlan plans planName = some plan)
    (hnew : pvcs.any (fun q => q.name == "d-" ++ d.name && q.ns == d.ns) =
      false) :
    (appSyncHandler nsValid defaultDomain key (some d) plans pvcs o).patches =
      [{ ns := d.ns, name := d.name, patchType := "merge"
         payload := setupStoragePatchData }] ∧
    (o.patchErr = none →
      (appSyncHandler nsValid defaultDomain key (some d) plans pvcs o).err =
        none) ∧
    (∀ pe, o.patchErr = some pe →
      (appSyncHandler nsValid defaultDomain key (some d) plans pvcs o).err =
        some (key ++ " - failed updating deployment [" ++ pe ++ "]")) := by
  refine ⟨?_, ?_, ?_⟩
  · cases hpe : o.patchErr <;>
      simp [appSyncHandler, createPVC, newPVC, hstore, hcreate, hpe, hdel,
        hns, hplan, hsetup, hfound, hnew]
  · intro hpe
    simp [appSyncHandler, createPVC, newPVC, hstore, hcreate, hpe, hdel,
      hns, hplan, hsetup, hfound, hnew]
  · intro pe hpe
    simp [appSyncHandler, createPVC, newPVC, hstore, hcreate, hpe, hdel,
      hns, hplan, hsetup, hfound, hnew]

/-- Witness for C6: the patch clearing the marker is issued on first creation
and a failing patch makes the sync fail. -/
theorem claim_C6_witness :
    (appSyncHandler (fun _ => true) "" "acme/myapp" (some sampleStorageDp)
      [samplePlan] [] okAppOracles).patches =
      [{ ns := sampleStorageDp.ns, name := sampleStorageDp.name
         patchType := "merge", payload := setupStoragePatchData }] ∧
    (appSyncHandler (fun _ => true) "" "acme/myapp" (some sampleStorageDp)
      [samplePlan] [] okAppOracles).err = none ∧
    (appSyncHandler (fun _ => true) "" "acme/myapp" (some sampleStorageDp)
      [samplePlan] []
      { storeErr := none, pvcCreateErr := none, patchErr := some "denied"
        cleanErr := none }).err =
      some ("acme/myapp" ++ " - failed updating deployment [" ++ "denied" ++
        "]") := by
  have h1 := claim_C6_clear_marker_patch (fun _ => true) "" "acme/myapp"
    sampleStorageDp [samplePlan] [] okAppOracles "small" samplePlan
    rfl rfl rfl rfl (by decide) (by decide) rfl rfl
  have h2 := claim_C6_clear_marker_patch (fun _ => true) "" "acme/myapp"
    sampleStorageDp [samplePlan] []
    { storeErr := none, pvcCreateErr := none, patchErr := some "denied"
      cleanErr := none } "small" samplePlan
    rfl rfl rfl rfl (by decide) (by decide) rfl rfl
  exact ⟨h1.1, h1.2.1 rfl, h2.2.2 "denied" rfl⟩

/-- C8: for a key absent from the deployment cache that splits into a
namespace and a name, the sync issues one pod delete-collection call with the
label-equality selector app=name when the namespace is platform-valid — and
returns success even though the delete may fail (the failure oracle is
unconstrained) — while an invalid namespace yields no delete-collection call. -/
theorem claim_C8_orphan_cleanup (nsValid : String → Bool)
    (defaultDomain key ns appName : String) (plans : List Plan)
    (pvcs : List PVC) (o : AppOracles)
    (hstore : o.storeErr = none)
    (hkey : stringsSplitSlash key = [ns, appName]) :
    (nsValid ns = true →
      (appSyncHandler nsValid defaultDomain key none plans pvcs o).deleteCollections =
        [(ns, AnnotationApp ++ "=" ++ appName)] ∧
      (appSyncHandler nsValid defaultDomain key none plans pvcs o).err =
        none) ∧
    (nsValid ns = false →
      (appSyncHandler nsValid defaultDomain key none plans pvcs o).deleteCollections =
        [] ∧
      (appSyncHandler nsValid defaultDomain key none plans pvcs o).err =
        none) := by
  constructor
  · intro hv
    constructor <;> simp [appSyncHandler, hstore, hkey, hv]
  · intro hv
    constructor <;> simp [appSyncHandler, hstore, hkey, hv]

/-- Witness for C8 at a concrete key, in a valid and an invalid namespace,
with a failing delete oracle in the valid case. -/
theorem claim_C8_witness :
    (appSyncHandler (fun n => n == "acme") "" "acme/myapp" none [] []
      { storeErr := none, pvcCreateErr := none, patchErr := none
        cleanErr := some "denied" }).deleteCollections =
      [("acme", AnnotationApp ++ "=" ++ "myapp")] ∧
    (appSyncHandler (fun n => n == "acme") "" "acme/myapp" none [] []
      { storeErr := none, pvcCreateErr := none, patchErr := none
        cleanErr := some "denied" }).err = none ∧
    (appSyncHandler (fun n => n == "acme") "" "kube-system/myapp" none [] []
      okAppOracles).deleteCollections = [] := by
  have h1 := claim_C8_orphan_cleanup (fun n => n == "acme") "" "acme/myapp"
    "acme" "myapp" [] []
    { storeErr := none, pvcCreateErr := none, patchErr := none
      cleanErr := some "denied" } rfl (by decide)
  have h2 := claim_C8_orphan_cleanup (fun n => n == "acme") ""
    "kube-system/myapp" "kube-system" "myapp" [] [] okAppOracles rfl
    (by decide)
  exact ⟨(h1.1 rfl).1, (h1.1 rfl).2, (h2.2 rfl).1⟩

/-- C7: a deployment with the trigger-build marker "true" but without the
required source-control remote key makes the release sync create no Release,
record one MissingAnnotationKey warning event against the deployment, and
return an error. -/
theorem claim_C7_missing_remote (nsValid : String → Bool)
    (shaShort : String → Option String) (key : String) (dp : Deployment)
    (releases : List Release) (o : RelOracles)
    (hstore : o.storeErr = none)
    (hns : nsValid dp.ns = true)
    (hbuild : annGet dp.annotations "kolihub.io/build" = "true")
    (hmiss : lookupAnn dp.annotations AnnotationGitRemote = none) :
    (releaseSyncHandler nsValid shaShort key (some dp) releases o).releases =
      releases ∧
    (releaseSyncHandler nsValid shaShort key (some dp) releases o).events =
      [{ objName := dp.name, objNs := dp.ns, etype := "Warning"
         reason := "MissingAnnotationKey"
         message := "Missing required key '" ++ AnnotationGitRemote ++ "'" }] ∧
    (releaseSyncHandler nsValid shaShort key (some dp) releases o).err =
      some ("ValidateRequiredKeys [" ++
        ("Missing required key '" ++ AnnotationGitRemote ++ "'") ++ "]") := by
  have hval : validateRequiredKeys dp =
      some ("Missing required key '" ++ AnnotationGitRemote ++ "'") := by
    simp [validateRequiredKeys, requiredKeys, hmiss]
  refine ⟨?_, ?_, ?_⟩ <;>
    simp [releaseSyncHandler, hstore, hns, hbuild, hval]

/-- Witness for C7 at a concrete deployment missing the remote key. -/
theorem claim_C7_witness :
    (releaseSyncHandler (fun _ => true) (fun _ => none) "acme/myapp"
      (some sampleNoRemoteDp) [] okRelOracles).releases = [] ∧
    (releaseSyncHandler (fun _ => true) (fun _ => none) "acme/myapp"
      (some sampleNoRemoteDp) [] okRelOracles).events =
      [{ objName := sampleNoRemoteDp.name, objNs := sampleNoRemoteDp.ns
         etype := "Warning", reason := "MissingAnnotationKey"
         message := "Missing required key '" ++ AnnotationGitRemote ++ "'" }] ∧
    (releaseSyncHandler (fun _ => true) (fun _ => none) "acme/myapp"
      (some sampleNoRemoteDp) [] okRelOracles).err =
      some ("ValidateRequiredKeys [" ++
        ("Missing required key '" ++ AnnotationGitRemote ++ "'") ++ "]") := by
  have h := claim_C7_missing_remote (fun _ => true) (fun _ => none)
    "acme/myapp" sampleNoRemoteDp [] okRelOracles rfl rfl (by decide)
    (by decide)
  exact h

/-- C2: a deployment in a valid namespace with the trigger-build marker
"true", the required metadata present and no colliding Release makes the sync
create exactly one Release whose revision identifier equals the deployment
name, with the build flag true, the auto-deploy flag taken from the
auto-deploy marker, the correlation label kolihub.io/deploy equal to the
deployment name, and the source-control metadata copied verbatim from the
deployment's annotations; a subsequent reconcile of any deployment whose
marker is no longer "true" creates no additional Release. -/
theorem claim_C2_release_created (nsValid : String → Bool)
    (shaShort : String → Option String) (key : String) (dp : Deployment)
    (releases : List Release) (o : RelOracles)
    (hstore : o.storeErr = none)
    (hcreate : o.createErr = none)
    (hns : nsValid dp.ns = true)
    (hbuild : annGet dp.annotations "kolihub.io/build" = "true")
    (hkey : (lookupAnn dp.annotations AnnotationGitRemote).isSome = true)
    (hnew : releases.any (fun q => q.name == dp.name && q.ns == dp.ns) =
      false) :
    (releaseSyncHandler nsValid shaShort key (some dp) releases o).releases =
      releases ++ [newRelease shaShort dp] ∧
    (releaseSyncHandler nsValid shaShort key (some dp) releases o).err =
      none ∧
    (newRelease shaShort dp).name = dp.name ∧
    (newRelease shaShort dp).build = true ∧
    (newRelease shaShort dp).autoDeploy =
      (annGet dp.annotations AnnotationAutoDeploy == "true") ∧
    lookupAnn (newRelease shaShort dp).labels "kolihub.io/deploy" =
      some dp.name ∧
    (newRelease shaShort dp).gitRemote =
      annGet dp.annotations AnnotationGitRemote ∧
    (newRelease shaShort dp).gitBranch =
      annGet dp.annotations AnnotationGitBranch ∧
    (newRelease shaShort dp).gitRepository =
      annGet dp.annotations AnnotationGitRepository ∧
    (newRelease shaShort dp).headCommitID =
      annGet dp.annotations AnnotationGitCommitID ∧
    (newRelease shaShort dp).headCommitAuthor =
      annGet dp.annotations AnnotationGitAuthorName ∧
    (newRelease shaShort dp).headCommitAvatarURL =
      annGet dp.annotations AnnotationGitAuthorAvatar ∧
    (newRelease shaShort dp).headCommitCompare =
      annGet dp.annotations AnnotationGitCompare ∧
    (newRelease shaShort dp).headCommitMessage =
      annGet dp.annotations AnnotationGitCommitMessage ∧
    (newRelease shaShort dp).headCommitURL =
      annGet dp.annotations AnnotationGitCommitURL ∧
    (∀ (dp2 : Deployment) (key2 : String) (o2 : RelOracles)
       (rels2 : List Release),
      o2.storeErr = none →
      annGet dp2.annotations "kolihub.io/build" ≠ "true" →
      (releaseSyncHandler nsValid shaShort key2 (some dp2) rels2 o2).releases =
        rels2) := by
  obtain ⟨v, hv⟩ := Option.isSome_iff_exists.mp hkey
  have hval : validateRequiredKeys dp = none := by
    simp [validateRequiredKeys, requiredKeys, hv]
  have hcr : createRelease releases (newRelease shaShort dp) o.createErr =
      (releases ++ [newRelease shaShort dp], .created) := by
    simp [createRelease, hcreate, newRelease, hnew]
  refine ⟨?_, ?_, rfl, rfl, rfl, ?_, rfl, rfl, rfl, rfl, rfl, rfl, rfl, rfl,
      rfl, ?_⟩
  · simp [releaseSyncHandler, hstore, hns, hbuild, hval, hcr]
  · simp [releaseSyncHandler, hstore, hns, hbuild, hval, hcr]
  · simp [newRelease, lookupAnn]
  · intro dp2 key2 o2 rels2 hstore2 hmark
    have hm : (annGet dp2.annotations "kolihub.io/build" != "true") = true := by
      simpa using hmark
    by_cases h2 : nsValid dp2.ns
    · simp [releaseSyncHandler, hstore2, h2, hm]
    · simp [releaseSyncHandler, hstore2, h2]

/-- Witness for C2: the concrete build-marked deployment creates one Release
with the expected fields, and reconciling its marker-cleared form against the
resulting Release store creates nothing further. -/
theorem claim_C2_witness :
    (releaseSyncHandler (fun _ => true) (fun _ => none) "acme/myapp"
      (some sampleBuildDp) [] okRelOracles).releases =
      [newRelease (fun _ => none) sampleBuildDp] ∧
    (newRelease (fun _ => none) sampleBuildDp).name = sampleBuildDp.name ∧
    (newRelease (fun _ => none) sampleBuildDp).build = true ∧
    lookupAnn (newRelease (fun _ => none) sampleBuildDp).labels
      "kolihub.io/deploy" = some sampleBuildDp.name ∧
    (releaseSyncHandler (fun _ => true) (fun _ => none) "acme/myapp"
      (some sampleClearedDp) [newRelease (fun _ => none) sampleBuildDp]
      okRelOracles).releases = [newRelease (fun _ => none) sampleBuildDp] := by
  have h := claim_C2_release_created (fun _ => true) (fun _ => none)
    "acme/myapp" sampleBuildDp [] okRelOracles rfl rfl rfl (by decide)
    (by decide) rfl
  refine ⟨h.1, h.2.2.1, h.2.2.2.1, h.2.2.2.2.2.1, ?_⟩
  exact h.2.2.2.2.2.2.2.2.2.2.2.2.2.2.2 sampleClearedDp "acme/myapp"
    okRelOracles [newRelease (fun _ => none) sampleBuildDp] rfl (by decide)

/-- Counterexample to C1 as stated: a deployment that reaches the
release-construction step (marker "true", valid namespace, required key
present) whose Release create fails with a non-AlreadyExists error; the sync
returns the create error and issues no patch at all, so the build marker is
not cleared on that outcome. -/
theorem claim_C1_counterexample :
    annGet sampleBuildDp.annotations "kolihub.io/build" = "true" ∧
    validateRequiredKeys sampleBuildDp = none ∧
    boomRelOracles.createErr = some "boom" ∧
    (releaseSyncHandler (fun _ => true) (fun _ => none) "acme/myapp"
      (some sampleBuildDp) [] boomRelOracles).err =
      some ("failed creating new release: " ++ "boom") ∧
    (releaseSyncHandler (fun _ => true) (fun _ => none) "acme/myapp"
      (some sampleBuildDp) [] boomRelOracles).patches = [] := by
  refine ⟨by decide, by decide, rfl, rfl, rfl⟩

/-- C1 (amended): for a deployment reaching the release-construction step, the
sync applies the build-deactivation merge patch when the Release create
succeeds or collides as already-existing, and a failure of that patch is only
logged (the sync still returns success); but when the create fails with any
other error the sync returns that error without attempting the patch. -/
theorem claim_C1_amended_deactivate_patch (nsValid : String → Bool)
    (shaShort : String → Option String) (key : String) (dp : Deployment)
    (releases : List Release) (o : RelOracles)
    (hstore : o.storeErr = none)
    (hns : nsValid dp.ns = true)
    (hbuild : annGet dp.annotations "kolihub.io/build" = "true")
    (hval : validateRequiredKeys dp = none) :
    (o.createErr = none →
      (releaseSyncHandler nsValid shaShort key (some dp) releases o).patches =
        [{ ns := dp.ns, name := dp.name, patchType := "strategic-merge"
           payload := activateBuildPayload false }] ∧
      (releaseSyncHandler nsValid shaShort key (some dp) releases o).err =
        none) ∧
    (∀ m, o.createErr = some m →
      (releaseSyncHandler nsValid shaShort key (some dp) releases o).patches =
        [] ∧
      (releaseSyncHandler nsValid shaShort key (some dp) releases o).err =
        some ("failed creating new release: " ++ m)) := by
  constructor
  · intro hcreate
    by_cases hex : releases.any
        (fun q => q.name == (newRelease shaShort dp).name &&
          q.ns == (newRelease shaShort dp).ns)
    · have hcr : createRelease releases (newRelease shaShort dp) o.createErr =
          (releases, .alreadyExists) := by
        simp [createRelease, hcreate, hex]
      constructor <;>
        simp [releaseSyncHandler, hstore, hns, hbuild, hval, hcr]
    · have hcr : createRelease releases (newRelease shaShort dp) o.createErr =
          (releases ++ [newRelease shaShort dp], .created) := by
        simp only [Bool.not_eq_true] at hex
        simp [createRelease, hcreate, hex]
      constructor <;>
        simp [releaseSyncHandler, hstore, hns, hbuild, hval, hcr]
  · intro m hm
    have hcr : createRelease releases (newRelease shaShort dp) o.createErr =
        (releases, .otherErr m) := by
      simp [createRelease, hm]
    constructor <;>
      simp [releaseSyncHandler, hstore, hns, hbuild, hval, hcr]

/-- Witness for the amended C1: the patch is issued on successful create (even
with a failing patch oracle the sync returns success), and the injected create
failure yields an error with no patch. -/
theorem claim_C1_amended_witness :
    (releaseSyncHandler (fun _ => true) (fun _ => none) "acme/myapp"
      (some sampleBuildDp) []
      { storeErr := none, createErr := none
        patchErr := some "denied" }).patches =
      [{ ns := sampleBuildDp.ns, name := sampleBuildDp.name
         patchType := "strategic-merge"
         payload := activateBuildPayload false }] ∧
    (releaseSyncHandler (fun _ => true) (fun _ => none) "acme/myapp"
      (some sampleBuildDp) []
      { storeErr := none, createErr := none
        patchErr := some "denied" }).err = none ∧
    (releaseSyncHandler (fun _ => true) (fun _ => none) "acme/myapp"
      (some sampleBuildDp) [] boomRelOracles).patches = [] := by
  have h1 := claim_C1_amended_deactivate_patch (fun _ => true) (fun _ => none)
    "acme/myapp" sampleBuildDp []
    { storeErr := none, createErr := none, patchErr := some "denied" }
    rfl rfl (by decide) (by decide)
  have h2 := claim_C1_amended_deactivate_patch (fun _ => true) (fun _ => none)
    "acme/myapp" sampleBuildDp [] boomRelOracles rfl rfl (by decide)
    (by decide)
  exact ⟨(h1.1 rfl).1, (h1.1 rfl).2, (h2.2 "boom" rfl).1⟩

end Koli
